import Mathlib

/-!
Shallow embedding of the Fitmealor recommendation client
(`src/frontend/src/pages/HealthProfile.tsx`, `src/frontend/src/pages/Recommendations.tsx`)
and, where the repository does not ship the FastAPI recommendation backend,
a model of the backend constraint filter taken from the specification.

JavaScript numbers are embedded as `ℚ` (the arithmetic in the source is all
exact decimal arithmetic on small literals), `Math.round` as `jround`,
`String.prototype.includes` as `strHas` over character lists and
`String.prototype.toLowerCase` as `lowerS` (ASCII lowercasing, the identity on
the Korean strings involved, exactly as in JavaScript).
-/

/-- JavaScript `Math.round`: round half toward positive infinity. -/
def jround (x : ℚ) : ℤ := ⌊x + 1/2⌋

/-- Tests whether `pat` is a leading segment of `hay` (character-list version
of JavaScript `String.prototype.startsWith`). -/
def strStarts : List Char → List Char → Bool
  | [], _ => true
  | _ :: _, [] => false
  | a :: as, b :: bs => a == b && strStarts as bs

/-- Embeds JavaScript `hay.includes(pat)` on character lists: `strHas pat hay`. -/
def strHas (pat : List Char) : List Char → Bool
  | [] => strStarts pat []
  | c :: rest => strStarts pat (c :: rest) || strHas pat rest

/-- JavaScript `s.toLowerCase()` viewed as a character list (ASCII lowering,
identity on Hangul, as in JavaScript for the characters used here). -/
def lowerS (s : String) : List Char := s.toList.map Char.toLower

/-- JavaScript truthiness of a number (`NaN` is not representable in `ℚ`,
so a number is truthy iff it is nonzero). -/
def truthyNum (q : ℚ) : Bool := decide (q ≠ 0)

/-- JavaScript truthiness of a string: nonempty. -/
def truthyStr (s : String) : Bool := decide (s ≠ "")

/-- The user profile state of the Home / HealthProfile components
(`userProfile` in `HealthProfile.tsx`). -/
structure Profile where
  name : String
  age : ℚ
  gender : String
  height : ℚ
  weight : ℚ
  targetWeight : ℚ
  activityLevel : String
  healthGoal : String
deriving DecidableEq

/-- From `HealthProfile.tsx` line 72/677: `gender === '남성' || gender === 'Male'`. -/
def isMale (p : Profile) : Bool := p.gender == "남성" || p.gender == "Male"

/-- Mifflin–St Jeor BMR, `HealthProfile.tsx` lines 73–75 / 678–680 (exact value
before display rounding). -/
def bmrQ (p : Profile) : ℚ :=
  if isMale p then
    10 * p.weight + 6.25 * p.height - 5 * p.age + 5
  else
    10 * p.weight + 6.25 * p.height - 5 * p.age - 161

/-- The `activityMultipliers` string-keyed table, lines 78–87 / 683–692. -/
def activityMultipliers (s : String) : Option ℚ :=
  if s = "비활동적" then some 1.2
  else if s = "Sedentary" then some 1.2
  else if s = "가볍게 활동적" then some 1.375
  else if s = "Lightly Active" then some 1.375
  else if s = "활동적" then some 1.55
  else if s = "Active" then some 1.55
  else if s = "매우 활동적" then some 1.725
  else if s = "Very Active" then some 1.725
  else none

/-- Line 88/693: `tdee = bmr * (activityMultipliers[level] || 1.55)`
(no table value is `0`, so `||` is exactly `Option.getD`). -/
def tdeeQ (p : Profile) : ℚ :=
  bmrQ p * ((activityMultipliers p.activityLevel).getD 1.55)

/-- The `goalMultipliers` string-keyed table, lines 91–98 / 696–703. -/
def goalMultipliers (s : String) : Option ℚ :=
  if s = "체중감량" then some 0.8
  else if s = "Weight Loss" then some 0.8
  else if s = "체중유지" then some 1.0
  else if s = "Maintain Weight" then some 1.0
  else if s = "근육증가" then some 1.1
  else if s = "Muscle Gain" then some 1.1
  else none

/-- Line 99/704: `adjusted_tdee = tdee * (goalMultipliers[goal] || 1.0)`. -/
def adjustedTdeeQ (p : Profile) : ℚ :=
  tdeeQ p * ((goalMultipliers p.healthGoal).getD 1.0)

/-- One protein/carbs/fat row of the goal-dependent ratio table. -/
structure RatioRow where
  protein : ℚ
  carbs : ℚ
  fat : ℚ
deriving DecidableEq

/-- The ratio table keyed by health-goal string, lines 102–109 / 707–714. -/
def goalRatios (s : String) : Option RatioRow :=
  if s = "체중감량" then some ⟨0.40, 0.35, 0.25⟩
  else if s = "Weight Loss" then some ⟨0.40, 0.35, 0.25⟩
  else if s = "체중유지" then some ⟨0.25, 0.50, 0.25⟩
  else if s = "Maintain Weight" then some ⟨0.25, 0.50, 0.25⟩
  else if s = "근육증가" then some ⟨0.30, 0.50, 0.20⟩
  else if s = "Muscle Gain" then some ⟨0.30, 0.50, 0.20⟩
  else none

/-- Line 110/715: `ratio = goalRatios[goal] || {0.25, 0.50, 0.25}`. -/
def ratioOf (s : String) : RatioRow := (goalRatios s).getD ⟨0.25, 0.50, 0.25⟩

/-- Line 112/717: protein grams before rounding, `adjusted_tdee * ratio.protein / 4`. -/
def proteinGQ (p : Profile) : ℚ := adjustedTdeeQ p * (ratioOf p.healthGoal).protein / 4

/-- Line 113/718: carb grams before rounding, `adjusted_tdee * ratio.carbs / 4`. -/
def carbsGQ (p : Profile) : ℚ := adjustedTdeeQ p * (ratioOf p.healthGoal).carbs / 4

/-- Line 114/719: fat grams before rounding, `adjusted_tdee * ratio.fat / 9`. -/
def fatGQ (p : Profile) : ℚ := adjustedTdeeQ p * (ratioOf p.healthGoal).fat / 9

/-- The nested `macro_targets` record of `TDEEInfo` (rounded display values). -/
structure Targets where
  protein_g : ℤ
  carbs_g : ℤ
  fat_g : ℤ
  calories : ℤ
deriving DecidableEq

/-- The `TDEEInfo` record returned by the `useMemo` computation. -/
structure TDEEInfo where
  bmr : ℤ
  tdee : ℤ
  adjusted_tdee : ℤ
  targets : Targets
deriving DecidableEq

/-- The whole `tdeeInfo` computation, lines 70–127 / 675–732: exact rational
arithmetic, every displayed field rounded independently with `Math.round`. -/
def tdeeInfo (p : Profile) : TDEEInfo :=
  { bmr := jround (bmrQ p)
    tdee := jround (tdeeQ p)
    adjusted_tdee := jround (adjustedTdeeQ p)
    targets :=
      { protein_g := jround (proteinGQ p)
        carbs_g := jround (carbsGQ p)
        fat_g := jround (fatGQ p)
        calories := jround (adjustedTdeeQ p) } }

/-- A meal item as consumed by the client pages (the TypeScript `Meal`
interface plus `category`), extended with the `allergen_set` that the engine's
`MealCandidate` carries per spec section 3 — the client interface does not
re-declare it, but the backend items it filters are the same objects. -/
structure Meal where
  name : String
  name_kr : Option String
  name_en : Option String
  calories : ℚ
  protein_g : ℚ
  carbs_g : ℚ
  fat_g : ℚ
  category : String
  score : ℚ
  allergens : List String
deriving DecidableEq

/-- Lines 1022 / 48: categories excluded from display. -/
def excludedCategories : List String :=
  ["커피", "영양제", "건강기능식품", "음료", "차/음료", "보충제", "비타민"]

/-- The category/name exclusion predicate of `fetchRecommendations`
(`HealthProfile.tsx` lines 1023–1042, identically `Recommendations.tsx`
lines 49–66): `true` iff the meal is kept. -/
def notExcludedMeal (m : Meal) : Bool :=
  let category := lowerS m.category
  let name := lowerS m.name
  if excludedCategories.any (fun e => strHas (lowerS e) category) then false
  else if strHas "커피".toList name || strHas "coffee".toList name ||
      strHas "비타민".toList name || strHas "vitamin".toList name ||
      strHas "영양제".toList name || strHas "supplement".toList name then false
  else true

/-- The filter object produced by the chatbot (`appliedFilters`). -/
structure ChatFilters where
  maxCalories : Option ℚ
  minProtein : Option ℚ
  maxCarbs : Option ℚ
  maxFat : Option ℚ
  excludeIngredients : List String
  includeIngredients : List String
  preferHighProtein : Bool
  preferLowCarb : Bool
deriving DecidableEq

/-- JavaScript `o && meal-field-violates(o)` for an optional numeric filter
bound: the branch fires only when the bound is present and truthy. -/
def boundFires (o : Option ℚ) (bad : ℚ → Bool) : Bool :=
  match o with
  | none => false
  | some v => truthyNum v && bad v

/-- The chatbot filter body, `HealthProfile.tsx` lines 1046–1089:
`true` iff the meal is kept. -/
def chatKeep (f : ChatFilters) (m : Meal) : Bool :=
  if boundFires f.maxCalories (fun v => decide (v < m.calories)) then false
  else if boundFires f.minProtein (fun v => decide (m.protein_g < v)) then false
  else if boundFires f.maxCarbs (fun v => decide (v < m.carbs_g)) then false
  else if boundFires f.maxFat (fun v => decide (v < m.fat_g)) then false
  else if decide (0 < f.excludeIngredients.length) &&
      f.excludeIngredients.any (fun i => strHas (lowerS i) (lowerS m.name)) then false
  else if decide (0 < f.includeIngredients.length) &&
      !(f.includeIngredients.any (fun i => strHas (lowerS i) (lowerS m.name))) then false
  else true

/-- Stable insertion: the new element goes after every existing element `b`
with `le b a`, matching the stable `Array.prototype.sort`. -/
def stableInsert (le : α → α → Bool) (a : α) : List α → List α
  | [] => [a]
  | b :: bs => if le b a then b :: stableInsert le a bs else a :: b :: bs

/-- Insertion pass over the input in original order. -/
def stableSortGo (le : α → α → Bool) (acc : List α) : List α → List α
  | [] => acc
  | a :: as => stableSortGo le (stableInsert le a acc) as

/-- A stable sort, embedding the (stable, ES2019) JavaScript `sort` with a
total-preorder comparator: `le x y` means the comparator puts `x` not after
`y`. -/
def stableSort (le : α → α → Bool) (l : List α) : List α := stableSortGo le [] l

/-- Comparator of line 1093, `(a, b) => b.protein_g - a.protein_g`:
descending protein. -/
def byProteinDesc (a b : Meal) : Bool := decide (b.protein_g ≤ a.protein_g)

/-- Comparator of line 1095, `(a, b) => a.carbs_g - b.carbs_g`:
ascending carbs. -/
def byCarbsAsc (a b : Meal) : Bool := decide (a.carbs_g ≤ b.carbs_g)

/-- The client-side Home filter pipeline, `HealthProfile.tsx` lines 1019–1099:
category/name exclusion, optional chatbot filter and sort, then
`slice(0, 12)`. -/
def homeFilteredMeals (appliedFilters : Option ChatFilters) (recs : List Meal) :
    List Meal :=
  let filteredMeals := recs.filter notExcludedMeal
  let filteredMeals :=
    match appliedFilters with
    | none => filteredMeals
    | some f =>
      let fm := filteredMeals.filter (chatKeep f)
      if f.preferHighProtein then stableSort byProteinDesc fm
      else if f.preferLowCarb then stableSort byCarbsAsc fm
      else fm
  filteredMeals.take 12

/-- The Recommendations-page pipeline, `Recommendations.tsx` lines 48–68:
the same exclusion filter, then `slice(0, 15)`. -/
def recsFilteredMeals (recs : List Meal) : List Meal :=
  (recs.filter notExcludedMeal).take 15

/-- The up-front field validation of `fetchRecommendations`
(`HealthProfile.tsx` lines 988–995): every required field must be truthy,
otherwise the call clears the recommendations and returns early. -/
def profileFieldsOk (p : Profile) : Bool :=
  truthyNum p.age && truthyStr p.gender && truthyNum p.height &&
  truthyNum p.weight && truthyNum p.targetWeight &&
  truthyStr p.activityLevel && truthyStr p.healthGoal

/-- The observable outcome of one `fetchRecommendations` call
(lines 982–1106): `none` models the early return (recommendations cleared,
no request made); otherwise the displayed list is the filtered server
response. -/
def fetchRecsHome (p : Profile) (appliedFilters : Option ChatFilters)
    (serverRecs : List Meal) : Option (List Meal) :=
  if profileFieldsOk p then some (homeFilteredMeals appliedFilters serverRecs)
  else none

/-- Modelled from the spec: the FastAPI recommendation backend
(`app/models/recommendation_model.py`, reachable at
`/api/v1/recommendations/recommend`) is not under `src/`; spec section 4.3
defines its hard-constraint filter: a candidate is excluded iff
`candidate.allergen_set ∩ allergy_set ≠ ∅` (diet rules here are always the
empty list, line 1008). The survivors are returned in order. -/
def backendRecommend (allergies : List String) (pool : List Meal) : List Meal :=
  pool.filter (fun m => m.allergens.all (fun a => decide (a ∉ allergies)))

/-- The display-cleanliness property C10 asserts of every shown meal: its
lowercased category contains no excluded category string and its lowercased
name contains none of the six banned substrings. -/
def mealDisplayClean (m : Meal) : Prop :=
  (∀ e ∈ excludedCategories, strHas (lowerS e) (lowerS m.category) = false) ∧
  strHas "커피".toList (lowerS m.name) = false ∧
  strHas "coffee".toList (lowerS m.name) = false ∧
  strHas "비타민".toList (lowerS m.name) = false ∧
  strHas "vitamin".toList (lowerS m.name) = false ∧
  strHas "영양제".toList (lowerS m.name) = false ∧
  strHas "supplement".toList (lowerS m.name) = false

theorem mem_stableInsert {le : α → α → Bool} {a b : α} {l : List α} :
    b ∈ stableInsert le a l ↔ b = a ∨ b ∈ l := by
  induction l with
  | nil => simp [stableInsert]
  | cons c cs ih =>
    simp only [stableInsert]
    by_cases h : le c a = true
    · simp only [if_pos h, List.mem_cons, ih]
      tauto
    · simp only [if_neg h, List.mem_cons]

theorem mem_stableSortGo {le : α → α → Bool} {b : α} :
    ∀ (l acc : List α), b ∈ stableSortGo le acc l ↔ b ∈ acc ∨ b ∈ l := by
  intro l
  induction l with
  | nil => simp [stableSortGo]
  | cons a as ih =>
    intro acc
    simp only [stableSortGo]
    rw [ih, mem_stableInsert]
    simp only [List.mem_cons]
    tauto

theorem mem_stableSort {le : α → α → Bool} {b : α} {l : List α} :
    b ∈ stableSort le l ↔ b ∈ l := by
  simp [stableSort, mem_stableSortGo]

theorem mem_homeFilteredMeals {appliedFilters : Option ChatFilters}
    {recs : List Meal} {m : Meal} (h : m ∈ homeFilteredMeals appliedFilters recs) :
    m ∈ recs ∧ notExcludedMeal m = true := by
  unfold homeFilteredMeals at h
  have h' := List.take_subset _ _ h
  have hfm : m ∈ recs.filter notExcludedMeal := by
    cases appliedFilters with
    | none => exact h'
    | some f =>
      simp only at h'
      by_cases h1 : f.preferHighProtein = true
      · rw [if_pos h1, mem_stableSort] at h'
        exact (List.mem_filter.mp h').1
      · rw [if_neg h1] at h'
        by_cases h2 : f.preferLowCarb = true
        · rw [if_pos h2, mem_stableSort] at h'
          exact (List.mem_filter.mp h').1
        · rw [if_neg h2] at h'
          exact (List.mem_filter.mp h').1
  exact ⟨(List.mem_filter.mp hfm).1, (List.mem_filter.mp hfm).2⟩

theorem length_homeFilteredMeals (appliedFilters : Option ChatFilters)
    (recs : List Meal) : (homeFilteredMeals appliedFilters recs).length ≤ 12 := by
  unfold homeFilteredMeals
  simp only [List.length_take]
  exact min_le_left _ _

/-- Distance between a rational and its `Math.round` image is at most `1/2`. -/
theorem jround_err (x : ℚ) : |x - (jround x : ℚ)| ≤ 1/2 := by
  unfold jround
  have h1 : ((⌊x + 1/2⌋ : ℤ) : ℚ) ≤ x + 1/2 := Int.floor_le _
  have h2 : x + 1/2 < (⌊x + 1/2⌋ : ℤ) + 1 := Int.lt_floor_add_one _
  rw [abs_le]
  constructor <;> linarith

/-- Every row the ratio lookup can produce has fractions summing to `1`. -/
theorem ratioOf_sum (s : String) :
    (ratioOf s).protein + (ratioOf s).carbs + (ratioOf s).fat = 1 := by
  unfold ratioOf goalRatios
  split_ifs <;> norm_num


/-- C2 counterexample: the claim quantifies over every profile with positive
height and weight and age in [10,100], but a male profile with height 1 cm,
weight 1 kg and age 100 satisfies those bounds while its Mifflin–St Jeor BMR,
`10*1 + 6.25*1 - 5*100 + 5 = -478.75`, is negative — the "strictly positive"
part of the claim is false. -/
theorem c2_counterexample :
    0 < (Profile.mk "" 100 "남성" 1 1 1 "활동적" "체중유지").height ∧
    0 < (Profile.mk "" 100 "남성" 1 1 1 "활동적" "체중유지").weight ∧
    10 ≤ (Profile.mk "" 100 "남성" 1 1 1 "활동적" "체중유지").age ∧
    (Profile.mk "" 100 "남성" 1 1 1 "활동적" "체중유지").age ≤ 100 ∧
    bmrQ (Profile.mk "" 100 "남성" 1 1 1 "활동적" "체중유지") = -478.75 ∧
    ¬ (0 < bmrQ (Profile.mk "" 100 "남성" 1 1 1 "활동적" "체중유지")) := by
  norm_num +decide [bmrQ, isMale]

/-- C2 (amended): for every profile with positive height and weight and age
in [10,100], the computed BMR equals `10*weight + 6.25*height - 5*age + 5`
when the gender is male (`남성`/`Male`) and
`10*weight + 6.25*height - 5*age - 161` when it is female (`여성`/`Female`);
the BMR is strictly positive whenever additionally
`5*age + 161 < 10*weight + 6.25*height` (it is not positive for all profiles
in the claimed range, see the counterexample). -/
theorem c2_bmr_formula (p : Profile)
    (hh : 0 < p.height) (hw : 0 < p.weight)
    (ha1 : 10 ≤ p.age) (ha2 : p.age ≤ 100) :
    ((p.gender = "남성" ∨ p.gender = "Male") →
      bmrQ p = 10 * p.weight + 6.25 * p.height - 5 * p.age + 5) ∧
    ((p.gender = "여성" ∨ p.gender = "Female") →
      bmrQ p = 10 * p.weight + 6.25 * p.height - 5 * p.age - 161) ∧
    (5 * p.age + 161 < 10 * p.weight + 6.25 * p.height → 0 < bmrQ p) := by
  refine ⟨?_, ?_, ?_⟩
  · rintro (h | h) <;> simp +decide [bmrQ, isMale, h]
  · rintro (h | h) <;> simp +decide [bmrQ, isMale, h]
  · intro hlt
    unfold bmrQ
    split_ifs <;> linarith

/-- C2 witness: the sample profile (25-year-old male, 175 cm, 70 kg) is in
the claimed range, satisfies the positivity side condition, and its BMR is
positive. -/
theorem c2_witness :
    0 < bmrQ (Profile.mk "" 25 "남성" 175 70 65 "활동적" "체중감량") :=
  (c2_bmr_formula (Profile.mk "" 25 "남성" 175 70 65 "활동적" "체중감량")
    (by norm_num) (by norm_num) (by norm_num) (by norm_num)).2.2 (by norm_num)

/-- C3: for every profile whose activity level is one of the four defined
levels (under its Korean or its English key), the computed TDEE is exactly
BMR times the table value: sedentary 1.20, lightly active 1.375, active 1.55,
very active 1.725 — the two spellings of a level give the same result. -/
theorem c3_tdee_table (p : Profile) :
    ((p.activityLevel = "비활동적" ∨ p.activityLevel = "Sedentary") →
      tdeeQ p = bmrQ p * 1.2) ∧
    ((p.activityLevel = "가볍게 활동적" ∨ p.activityLevel = "Lightly Active") →
      tdeeQ p = bmrQ p * 1.375) ∧
    ((p.activityLevel = "활동적" ∨ p.activityLevel = "Active") →
      tdeeQ p = bmrQ p * 1.55) ∧
    ((p.activityLevel = "매우 활동적" ∨ p.activityLevel = "Very Active") →
      tdeeQ p = bmrQ p * 1.725) := by
  refine ⟨?_, ?_, ?_, ?_⟩ <;>
    rintro (h | h) <;>
    simp +decide [tdeeQ, activityMultipliers, h]

/-- C3 witness: at the sample profile with activity level `활동적` the TDEE
is BMR times 1.55. -/
theorem c3_witness :
    tdeeQ (Profile.mk "" 25 "남성" 175 70 65 "활동적" "체중감량") =
      bmrQ (Profile.mk "" 25 "남성" 175 70 65 "활동적" "체중감량") * 1.55 :=
  (c3_tdee_table (Profile.mk "" 25 "남성" 175 70 65 "활동적" "체중감량")).2.2.1
    (Or.inl rfl)

/-- C4: for every profile whose health goal is one of the three defined goals
(Korean or English key), `adjusted_tdee` is exactly TDEE times the goal
multiplier: weight loss 0.80, maintain 1.00, muscle gain 1.10. -/
theorem c4_goal_table (p : Profile) :
    ((p.healthGoal = "체중감량" ∨ p.healthGoal = "Weight Loss") →
      adjustedTdeeQ p = tdeeQ p * 0.8) ∧
    ((p.healthGoal = "체중유지" ∨ p.healthGoal = "Maintain Weight") →
      adjustedTdeeQ p = tdeeQ p * 1.0) ∧
    ((p.healthGoal = "근육증가" ∨ p.healthGoal = "Muscle Gain") →
      adjustedTdeeQ p = tdeeQ p * 1.1) := by
  refine ⟨?_, ?_, ?_⟩ <;>
    rintro (h | h) <;>
    simp +decide [adjustedTdeeQ, goalMultipliers, h]

/-- C4 witness: at the sample profile with goal `체중감량` the adjusted TDEE
is TDEE times 0.8. -/
theorem c4_witness :
    adjustedTdeeQ (Profile.mk "" 25 "남성" 175 70 65 "활동적" "체중감량") =
      tdeeQ (Profile.mk "" 25 "남성" 175 70 65 "활동적" "체중감량") * 0.8 :=
  (c4_goal_table (Profile.mk "" 25 "남성" 175 70 65 "활동적" "체중감량")).1
    (Or.inl rfl)

/-- C5 counterexample: for the profile (female, age 87, 150 cm, 35.1 kg,
sedentary, weight loss) the adjusted TDEE is 664.8 kcal while the
independently rounded macro grams (66 g protein, 58 g carbs, 18 g fat) give
`4*66 + 4*58 + 9*18 = 658` kcal: the gap 6.8 kcal exceeds the claimed ±1%
tolerance (6.648 kcal). -/
theorem c5_counterexample :
    ¬ (|adjustedTdeeQ (Profile.mk "" 87 "여성" 150 35.1 30 "비활동적" "체중감량") -
        (4 * ((tdeeInfo (Profile.mk "" 87 "여성" 150 35.1 30 "비활동적" "체중감량")).targets.protein_g : ℚ) +
         4 * ((tdeeInfo (Profile.mk "" 87 "여성" 150 35.1 30 "비활동적" "체중감량")).targets.carbs_g : ℚ) +
         9 * ((tdeeInfo (Profile.mk "" 87 "여성" 150 35.1 30 "비활동적" "체중감량")).targets.fat_g : ℚ))| ≤
      adjustedTdeeQ (Profile.mk "" 87 "여성" 150 35.1 30 "비활동적" "체중감량") / 100) := by
  norm_num +decide [tdeeInfo, jround, bmrQ, tdeeQ, adjustedTdeeQ, proteinGQ, carbsGQ,
    fatGQ, isMale, activityMultipliers, goalMultipliers, goalRatios, ratioOf]
  rw [abs_of_nonneg (by norm_num : (0 : ℚ) ≤ 34/5)]
  norm_num

/-- C5 (amended): the macro-gram targets are computed from the goal ratio
table (weight loss 0.40/0.35/0.25, maintain 0.25/0.50/0.25, muscle gain
0.30/0.50/0.20), divided by 4 kcal/g (protein, carbs) and 9 kcal/g (fat) and
rounded independently; the after-rounding calorie sum
`4*protein_g + 4*carbs_g + 9*fat_g` differs from `adjusted_tdee` by at most
8.5 kcal (the worst case of the three independent roundings), and hence lies
within the claimed ±1% whenever `adjusted_tdee ≥ 850` kcal — but not for
every profile (see the counterexample). -/
theorem c5_macro_sum_tolerance (p : Profile) :
    ((p.healthGoal = "체중감량" ∨ p.healthGoal = "Weight Loss") →
      ratioOf p.healthGoal = ⟨0.40, 0.35, 0.25⟩) ∧
    ((p.healthGoal = "체중유지" ∨ p.healthGoal = "Maintain Weight") →
      ratioOf p.healthGoal = ⟨0.25, 0.50, 0.25⟩) ∧
    ((p.healthGoal = "근육증가" ∨ p.healthGoal = "Muscle Gain") →
      ratioOf p.healthGoal = ⟨0.30, 0.50, 0.20⟩) ∧
    (tdeeInfo p).targets.protein_g = jround (adjustedTdeeQ p * (ratioOf p.healthGoal).protein / 4) ∧
    (tdeeInfo p).targets.carbs_g = jround (adjustedTdeeQ p * (ratioOf p.healthGoal).carbs / 4) ∧
    (tdeeInfo p).targets.fat_g = jround (adjustedTdeeQ p * (ratioOf p.healthGoal).fat / 9) ∧
    |adjustedTdeeQ p -
        (4 * ((tdeeInfo p).targets.protein_g : ℚ) + 4 * ((tdeeInfo p).targets.carbs_g : ℚ) +
          9 * ((tdeeInfo p).targets.fat_g : ℚ))| ≤ 17/2 ∧
    (850 ≤ adjustedTdeeQ p →
      |adjustedTdeeQ p -
          (4 * ((tdeeInfo p).targets.protein_g : ℚ) + 4 * ((tdeeInfo p).targets.carbs_g : ℚ) +
            9 * ((tdeeInfo p).targets.fat_g : ℚ))| ≤ adjustedTdeeQ p / 100) := by
  have hr := ratioOf_sum p.healthGoal
  have hsum : 4 * proteinGQ p + 4 * carbsGQ p + 9 * fatGQ p = adjustedTdeeQ p := by
    unfold proteinGQ carbsGQ fatGQ
    linear_combination (adjustedTdeeQ p) * hr
  have h1 := jround_err (proteinGQ p)
  have h2 := jround_err (carbsGQ p)
  have h3 := jround_err (fatGQ p)
  rw [abs_le] at h1 h2 h3
  have hbound : |adjustedTdeeQ p -
      (4 * ((tdeeInfo p).targets.protein_g : ℚ) + 4 * ((tdeeInfo p).targets.carbs_g : ℚ) +
        9 * ((tdeeInfo p).targets.fat_g : ℚ))| ≤ 17/2 := by
    simp only [tdeeInfo]
    rw [abs_le]
    constructor <;> linarith
  refine ⟨?_, ?_, ?_, rfl, rfl, rfl, hbound, fun hA => ?_⟩
  · rintro (h | h) <;> simp +decide [ratioOf, goalRatios, h]
  · rintro (h | h) <;> simp +decide [ratioOf, goalRatios, h]
  · rintro (h | h) <;> simp +decide [ratioOf, goalRatios, h]
  · have := abs_le.mp hbound
    rw [abs_le]
    constructor <;> linarith

/-- C5 witness: at the sample profile (adjusted TDEE 2075.45 ≥ 850) the goal
ratio is the weight-loss row and the macro-kcal sum is within ±1%. -/
theorem c5_witness :
    ratioOf (Profile.mk "" 25 "남성" 175 70 65 "활동적" "체중감량").healthGoal =
        ⟨0.40, 0.35, 0.25⟩ ∧
    |adjustedTdeeQ (Profile.mk "" 25 "남성" 175 70 65 "활동적" "체중감량") -
        (4 * ((tdeeInfo (Profile.mk "" 25 "남성" 175 70 65 "활동적" "체중감량")).targets.protein_g : ℚ) +
         4 * ((tdeeInfo (Profile.mk "" 25 "남성" 175 70 65 "활동적" "체중감량")).targets.carbs_g : ℚ) +
         9 * ((tdeeInfo (Profile.mk "" 25 "남성" 175 70 65 "활동적" "체중감량")).targets.fat_g : ℚ))| ≤
      adjustedTdeeQ (Profile.mk "" 25 "남성" 175 70 65 "활동적" "체중감량") / 100 :=
  ⟨(c5_macro_sum_tolerance (Profile.mk "" 25 "남성" 175 70 65 "활동적" "체중감량")).1
      (Or.inl rfl),
   (c5_macro_sum_tolerance (Profile.mk "" 25 "남성" 175 70 65 "활동적" "체중감량")).2.2.2.2.2.2.2
      (by norm_num +decide [adjustedTdeeQ, tdeeQ, bmrQ, isMale, activityMultipliers,
        goalMultipliers])⟩

/-- C7 counterexample: for the scenario profile (age 25, male, 175 cm, 70 kg,
active, weight loss) the code rounds `tdee = 1673.75 × 1.55 = 2594.3125` to
2594 and `adjusted_tdee = 2075.45` to 2075, not the claimed 2595 and 2076
(those arise only when the already-rounded BMR 1674 is multiplied instead). -/
theorem c7_counterexample :
    (tdeeInfo (Profile.mk "" 25 "남성" 175 70 65 "활동적" "체중감량")).tdee = 2594 ∧
    (2594 : ℤ) ≠ 2595 ∧
    (tdeeInfo (Profile.mk "" 25 "남성" 175 70 65 "활동적" "체중감량")).adjusted_tdee = 2075 ∧
    (2075 : ℤ) ≠ 2076 := by
  norm_num +decide [tdeeInfo, jround, bmrQ, tdeeQ, adjustedTdeeQ, isMale,
    activityMultipliers, goalMultipliers]

/-- C7 (amended): for the profile age 25, male, 175 cm, 70 kg, activity
`활동적` (active) and goal `체중감량` (weight loss), the calculator produces
(after rounding) bmr 1674, tdee 2594, adjusted_tdee 2075, and macro targets
208 g protein, 182 g carbs, 58 g fat, 2075 kcal. -/
theorem c7_scenario :
    tdeeInfo (Profile.mk "" 25 "남성" 175 70 65 "활동적" "체중감량") =
      ⟨1674, 2594, 2075, ⟨208, 182, 58, 2075⟩⟩ := by
  norm_num +decide [tdeeInfo, jround, bmrQ, tdeeQ, adjustedTdeeQ, proteinGQ, carbsGQ,
    fatGQ, isMale, activityMultipliers, goalMultipliers, goalRatios, ratioOf]

/-- C9: an activity-level string that is none of the eight table keys falls
back silently to the default multiplier 1.55, and a health-goal string that is
none of the six table keys falls back silently to goal multiplier 1.0 and the
maintain macro ratio 0.25/0.50/0.25 — the computation never fails on an
unrecognized string. -/
theorem c9_fallback_defaults (p : Profile) :
    (p.activityLevel ∉ (["비활동적", "Sedentary", "가볍게 활동적", "Lightly Active",
        "활동적", "Active", "매우 활동적", "Very Active"] : List String) →
      activityMultipliers p.activityLevel = none ∧ tdeeQ p = bmrQ p * 1.55) ∧
    (p.healthGoal ∉ (["체중감량", "Weight Loss", "체중유지", "Maintain Weight",
        "근육증가", "Muscle Gain"] : List String) →
      goalMultipliers p.healthGoal = none ∧ adjustedTdeeQ p = tdeeQ p * 1.0 ∧
      goalRatios p.healthGoal = none ∧ ratioOf p.healthGoal = ⟨0.25, 0.50, 0.25⟩) := by
  constructor
  · intro h
    simp only [List.mem_cons, List.not_mem_nil, or_false, not_or] at h
    obtain ⟨h1, h2, h3, h4, h5, h6, h7, h8⟩ := h
    simp [tdeeQ, activityMultipliers, h1, h2, h3, h4, h5, h6, h7, h8]
  · intro h
    simp only [List.mem_cons, List.not_mem_nil, or_false, not_or] at h
    obtain ⟨h1, h2, h3, h4, h5, h6⟩ := h
    constructor
    · simp [goalMultipliers, h1, h2, h3, h4, h5, h6]
    constructor
    · simp [adjustedTdeeQ, goalMultipliers, h1, h2, h3, h4, h5, h6]
    constructor
    · simp [goalRatios, h1, h2, h3, h4, h5, h6]
    · simp [ratioOf, goalRatios, h1, h2, h3, h4, h5, h6]

/-- C9 witness: the unrecognized strings `운동안함` and `다이어트` get the
default multiplier 1.55, the default goal multiplier 1.0 and the maintain
ratio row. -/
theorem c9_witness :
    tdeeQ (Profile.mk "" 25 "남성" 175 70 65 "운동안함" "다이어트") =
        bmrQ (Profile.mk "" 25 "남성" 175 70 65 "운동안함" "다이어트") * 1.55 ∧
    adjustedTdeeQ (Profile.mk "" 25 "남성" 175 70 65 "운동안함" "다이어트") =
        tdeeQ (Profile.mk "" 25 "남성" 175 70 65 "운동안함" "다이어트") * 1.0 ∧
    ratioOf (Profile.mk "" 25 "남성" 175 70 65 "운동안함" "다이어트").healthGoal =
        ⟨0.25, 0.50, 0.25⟩ :=
  ⟨((c9_fallback_defaults (Profile.mk "" 25 "남성" 175 70 65 "운동안함" "다이어트")).1
      (by decide)).2,
   ((c9_fallback_defaults (Profile.mk "" 25 "남성" 175 70 65 "운동안함" "다이어트")).2
      (by decide)).2.1,
   ((c9_fallback_defaults (Profile.mk "" 25 "남성" 175 70 65 "운동안함" "다이어트")).2
      (by decide)).2.2.2⟩

/-- C6 counterexample: the profile (age 150, height −5 cm) has non-positive
height and age outside [10,100], yet it passes the only validation the code
performs (truthiness of each field), `fetchRecommendations` proceeds, and the
nutrition-target computation still produces a (meaningless) target record
instead of rejecting the profile. -/
theorem c6_counterexample :
    (Profile.mk "Dylan" 150 "남성" (-5) 70 65 "활동적" "체중감량").height ≤ 0 ∧
    ¬ ((Profile.mk "Dylan" 150 "남성" (-5) 70 65 "활동적" "체중감량").age ≤ 100) ∧
    profileFieldsOk (Profile.mk "Dylan" 150 "남성" (-5) 70 65 "활동적" "체중감량") = true ∧
    fetchRecsHome (Profile.mk "Dylan" 150 "남성" (-5) 70 65 "활동적" "체중감량") none [] =
      some [] ∧
    tdeeInfo (Profile.mk "Dylan" 150 "남성" (-5) 70 65 "활동적" "체중감량") =
      ⟨-76, -118, -95, ⟨-9, -8, -3, -95⟩⟩ := by
  refine ⟨by norm_num, by norm_num, ?_, ?_, ?_⟩
  · norm_num +decide [profileFieldsOk, truthyNum, truthyStr]
  · norm_num +decide [fetchRecsHome, profileFieldsOk, truthyNum, truthyStr, homeFilteredMeals]
  · norm_num +decide [tdeeInfo, jround, bmrQ, tdeeQ, adjustedTdeeQ, proteinGQ, carbsGQ,
      fatGQ, isMale, activityMultipliers, goalMultipliers, goalRatios, ratioOf]

/-- C6 (amended): `fetchRecommendations` rejects a profile (clears the
recommendation list and returns before any request) exactly when one of its
required fields is JavaScript-falsy — a zero number or an empty string; a
negative height or weight or an age outside [10,100] is not rejected, and
the `tdeeInfo` computation itself performs no validation at all. -/
theorem c6_validation (p : Profile) (applied : Option ChatFilters) (recs : List Meal) :
    (profileFieldsOk p = true ↔
      (p.age ≠ 0 ∧ p.gender ≠ "" ∧ p.height ≠ 0 ∧ p.weight ≠ 0 ∧
        p.targetWeight ≠ 0 ∧ p.activityLevel ≠ "" ∧ p.healthGoal ≠ "")) ∧
    (profileFieldsOk p = false → fetchRecsHome p applied recs = none) ∧
    (profileFieldsOk p = true →
      fetchRecsHome p applied recs = some (homeFilteredMeals applied recs)) := by
  refine ⟨?_, ?_, ?_⟩
  · simp [profileFieldsOk, truthyNum, truthyStr, Bool.and_eq_true, decide_eq_true_iff,
      and_assoc]
  · intro h
    simp [fetchRecsHome, h]
  · intro h
    simp [fetchRecsHome, h]

/-- C6 witness: a profile with height 0 is rejected (no recommendations
produced); the same profile with height −5 is not. -/
theorem c6_witness :
    fetchRecsHome (Profile.mk "Dylan" 25 "남성" 0 70 65 "활동적" "체중감량") none [] =
      none :=
  (c6_validation (Profile.mk "Dylan" 25 "남성" 0 70 65 "활동적" "체중감량") none []).2.1
    (by norm_num [profileFieldsOk, truthyNum, truthyStr])

/-- C8: the nutrition-target computation and the client-side filter pipeline
are deterministic — two calls on equal profile, equal chatbot filters and
equal fetched candidate lists produce equal output. -/
theorem c8_determinism (p₁ p₂ : Profile) (a₁ a₂ : Option ChatFilters)
    (r₁ r₂ : List Meal) (hp : p₁ = p₂) (ha : a₁ = a₂) (hr : r₁ = r₂) :
    tdeeInfo p₁ = tdeeInfo p₂ ∧
    homeFilteredMeals a₁ r₁ = homeFilteredMeals a₂ r₂ ∧
    fetchRecsHome p₁ a₁ r₁ = fetchRecsHome p₂ a₂ r₂ := by
  subst hp
  subst ha
  subst hr
  exact ⟨rfl, rfl, rfl⟩

/-- C8 witness: two identical concrete calls agree. -/
theorem c8_witness :
    tdeeInfo (Profile.mk "" 25 "남성" 175 70 65 "활동적" "체중유지") =
        tdeeInfo (Profile.mk "" 25 "남성" 175 70 65 "활동적" "체중유지") ∧
    homeFilteredMeals none [] = homeFilteredMeals none [] ∧
    fetchRecsHome (Profile.mk "" 25 "남성" 175 70 65 "활동적" "체중유지") none [] =
        fetchRecsHome (Profile.mk "" 25 "남성" 175 70 65 "활동적" "체중유지") none [] :=
  c8_determinism _ _ _ _ _ _ rfl rfl rfl

theorem notExcludedMeal_iff (m : Meal) :
    notExcludedMeal m = true ↔ mealDisplayClean m := by
  unfold notExcludedMeal mealDisplayClean
  dsimp only
  split_ifs with hA hB
  · simp only [false_iff]
    intro hc
    obtain ⟨e, he, hstr⟩ := List.any_eq_true.mp hA
    rw [hc.1 e he] at hstr
    exact Bool.false_ne_true hstr
  · simp only [false_iff]
    simp only [Bool.or_eq_true] at hB
    intro hc
    obtain ⟨hc1, hc2, hc3, hc4, hc5, hc6, hc7⟩ := hc
    rcases hB with ((((h | h) | h) | h) | h) | h
    · rw [hc2] at h; exact Bool.false_ne_true h
    · rw [hc3] at h; exact Bool.false_ne_true h
    · rw [hc4] at h; exact Bool.false_ne_true h
    · rw [hc5] at h; exact Bool.false_ne_true h
    · rw [hc6] at h; exact Bool.false_ne_true h
    · rw [hc7] at h; exact Bool.false_ne_true h
  · simp only [true_iff]
    have hA' : ∀ e ∈ excludedCategories, strHas (lowerS e) (lowerS m.category) = false := by
      intro e he
      by_contra hne
      exact hA (List.any_eq_true.mpr ⟨e, he, by simpa using hne⟩)
    simp only [Bool.or_eq_true, not_or, Bool.not_eq_true] at hB
    obtain ⟨⟨⟨⟨⟨hb1, hb2⟩, hb3⟩, hb4⟩, hb5⟩, hb6⟩ := hB
    exact ⟨hA', hb1, hb2, hb3, hb4, hb5, hb6⟩

/-- C10: every meal displayed by the Home page and by the Recommendations page
passes the category/name exclusion (no excluded category substring, none of
the banned name substrings, case-insensitively), and the displayed lists have
length at most 12 (Home, `slice(0, 12)`) and at most 15 (Recommendations,
`slice(0, 15)`). -/
theorem c10_display_exclusions (applied : Option ChatFilters) (recs : List Meal)
    (m : Meal) :
    (m ∈ homeFilteredMeals applied recs → mealDisplayClean m) ∧
    (homeFilteredMeals applied recs).length ≤ 12 ∧
    (m ∈ recsFilteredMeals recs → mealDisplayClean m) ∧
    (recsFilteredMeals recs).length ≤ 15 := by
  refine ⟨?_, length_homeFilteredMeals applied recs, ?_, ?_⟩
  · intro h
    exact (notExcludedMeal_iff m).mp (mem_homeFilteredMeals h).2
  · intro h
    have h' := List.take_subset _ _ h
    exact (notExcludedMeal_iff m).mp (List.mem_filter.mp h').2
  · unfold recsFilteredMeals
    simp only [List.length_take]
    exact min_le_left _ _

/-- C10 witness: a clean meal passes both concrete pipelines and the length
bounds hold on a concrete input. -/
theorem c10_witness :
    mealDisplayClean (Meal.mk "닭가슴살 샐러드" none none 350 40 12 9 "샐러드" 92 []) ∧
    (homeFilteredMeals none
      [Meal.mk "아메리카노 커피" none none 10 0 2 0 "커피" 80 [],
       Meal.mk "닭가슴살 샐러드" none none 350 40 12 9 "샐러드" 92 []]).length ≤ 12 :=
  ⟨(c10_display_exclusions none
      [Meal.mk "아메리카노 커피" none none 10 0 2 0 "커피" 80 [],
       Meal.mk "닭가슴살 샐러드" none none 350 40 12 9 "샐러드" 92 []]
      (Meal.mk "닭가슴살 샐러드" none none 350 40 12 9 "샐러드" 92 [])).1 (by decide),
   (c10_display_exclusions none
      [Meal.mk "아메리카노 커피" none none 10 0 2 0 "커피" 80 [],
       Meal.mk "닭가슴살 샐러드" none none 350 40 12 9 "샐러드" 92 []]
      (Meal.mk "닭가슴살 샐러드" none none 350 40 12 9 "샐러드" 92 [])).2.1⟩

/-- C1: every meal in the final Home recommendation list — the spec-modelled
backend allergen filter followed by the client-side pipeline — carries no
allergen that appears in the profile's declared allergy list: the item's
allergen set and the user's allergy set are disjoint. -/
theorem c1_allergen_safety (allergies : List String) (applied : Option ChatFilters)
    (pool : List Meal) (m : Meal)
    (h : m ∈ homeFilteredMeals applied (backendRecommend allergies pool)) :
    m.allergens ∩ allergies = [] := by
  have hm := (mem_homeFilteredMeals h).1
  unfold backendRecommend at hm
  have hall := (List.mem_filter.mp hm).2
  simp only [List.all_eq_true, decide_eq_true_iff] at hall
  rw [List.inter_eq_nil_iff_disjoint]
  intro a ha hb
  exact hall a ha hb

/-- C1 witness: with declared allergy `땅콩`, the surviving meal of a concrete
pool reaches the displayed list and its allergen set (`우유`) avoids the
allergy set. -/
theorem c1_witness :
    (Meal.mk "닭가슴살 스테이크" none none 400 45 10 12 "한식" 90 ["우유"]).allergens ∩
      (["땅콩"] : List String) = [] :=
  c1_allergen_safety ["땅콩"] none
    [Meal.mk "닭가슴살 스테이크" none none 400 45 10 12 "한식" 90 ["우유"],
     Meal.mk "땅콩 볶음" none none 500 20 30 35 "한식" 85 ["땅콩"]]
    (Meal.mk "닭가슴살 스테이크" none none 400 45 10 12 "한식" 90 ["우유"])
    (by decide)
